import Mathlib

/-!
Shallow embedding of `targetcli/ui_backstore.py`: the driver-visible state
(`RTSRoot`), display-name deduplication, the per-kind creation entry points,
backstore index allocation, and storage-object deletion.

External collaborators are modelled as explicit state or oracle parameters:

* `RTSRoot` is the rtslib driver state (backstores and storage objects).
  `SomeBackstore(index, mode='create')` adds a backstore to that state; a
  `...StorageObject(...)` driver call either adds a storage object or raises
  an exception, which is abstracted by a `so_raises : Bool` oracle argument
  (the embedding never depends on why the driver fails, only on whether it
  does).
* The filesystem consulted by `os.path.isfile`, `os.path.exists`,
  `os.path.getsize`, `get_block_type` and `is_disk_partition` is a
  `FileSystem` record threaded through the fileio entry point.
* `rtslib.utils.convert_human_to_bytes` is an explicit function argument.
* `ui_eval_param(x, 'bool', True)` applied to an already-parsed optional
  boolean is `Option.getD · true`; shell log output that constitutes a
  command's observable outcome (`log.error` on a failed delete, `log.info`
  on success) is reflected in the result types.
-/

namespace Targetcli

/-- Failure outcomes observable from a UI command: a
`configshell.ExecutionError` with its message, an exception propagated from
an rtslib driver call, and Python's `UnboundLocalError`. -/
inductive PyErr where
  | executionError (msg : String)
  | driverError
  | unboundLocal
deriving DecidableEq

instance {ε α : Type} [DecidableEq ε] [DecidableEq α] :
    DecidableEq (Except ε α) := fun a b =>
  match a, b with
  | Except.error e, Except.error f =>
      if h : e = f then Decidable.isTrue (by rw [h])
      else Decidable.isFalse (by simp [h])
  | Except.error _, Except.ok _ => Decidable.isFalse (by simp)
  | Except.ok _, Except.error _ => Decidable.isFalse (by simp)
  | Except.ok x, Except.ok y =>
      if h : x = y then Decidable.isTrue (by rw [h])
      else Decidable.isFalse (by simp [h])

/-- An rtslib backstore (HBA): its plugin kind and index. -/
structure Backstore where
  plugin : String
  index : Nat
deriving DecidableEq

/-- An rtslib storage object: stored name, owning backstore plugin and
owning backstore index. -/
structure StorageObject where
  name : String
  plugin : String
  hbaIndex : Nat
deriving DecidableEq

/-- The driver state visible through `RTSRoot()`. -/
structure RTSRoot where
  backstores : List Backstore
  storage_objects : List StorageObject
deriving DecidableEq

/-- `[so.name for so in RTSRoot().storage_objects if so.backstore.plugin ==
plugin]`: stored names of all storage objects of the given plugin kind. -/
def so_names (root : RTSRoot) (plugin : String) : List String :=
  (root.storage_objects.filter (fun s => s.plugin == plugin)).map (fun s => s.name)

/-- `dedup_so_name`: if the stored name occurs more than once among storage
objects of the same plugin, return `name_X` where `X` is the HBA index,
otherwise return the stored name. -/
def dedup_so_name (root : RTSRoot) (so : StorageObject) : String :=
  if (so_names root so.plugin).count so.name > 1 then
    so.name ++ "_" ++ toString so.hbaIndex
  else
    so.name

/-- A UI child node of a backstore node (`UIStorageObject`): the display
name and the wrapped rtslib storage object (`rtsnode`). -/
structure UIStorageObject where
  name : String
  rtsnode : StorageObject
deriving DecidableEq

/-- `UIBackstore.refresh`: one UI child per storage object of this plugin,
displayed under its deduplicated name; the wrapped `rtsnode` is the storage
object itself, unchanged. -/
def refresh (root : RTSRoot) (plugin : String) : List UIStorageObject :=
  (root.storage_objects.filter (fun s => s.plugin == plugin)).map
    (fun so => ⟨dedup_so_name root so, so⟩)

/-- `UIBackstore.assert_available_so_name`: raise `ExecutionError` when the
proposed name is already a child's display name. -/
def assert_available_so_name (plugin : String) (children : List UIStorageObject)
    (name : String) : Except PyErr Unit :=
  if name ∈ children.map (fun c => c.name) then
    Except.error (PyErr.executionError
      ("Storage object " ++ plugin ++ "/" ++ name ++ " already exist."))
  else
    Except.ok ()

/-- `[backstore.index for backstore in RTSRoot().backstores if
backstore.plugin == self.name]`: indices of live backstores of a kind. -/
def used_indexes (root : RTSRoot) (plugin : String) : List Nat :=
  (root.backstores.filter (fun b => b.plugin == plugin)).map (fun b => b.index)

/-- The `for index in range(1048576)` loop of `next_hba_index`: starting at
`start` with `fuel` indices left in the range, return the first index not in
`indexes` (the `break`), or `none` when the range is exhausted without a
`break` (leaving the Python local `backstore_index` unassigned). -/
def scan_index (indexes : List Nat) : Nat → Nat → Option Nat
  | 0, _ => none
  | fuel + 1, i => if i ∈ indexes then scan_index indexes fuel (i + 1) else some i

/-- `UIBackstore.next_hba_index`. When the loop exhausts the range without a
`break`, the local `backstore_index` was never assigned, so the guard
`if backstore_index is None` itself raises `UnboundLocalError`; the
`ExecutionError("Cannot find an available backstore index.")` branch behind
that guard can never run. -/
def next_hba_index (root : RTSRoot) (plugin : String) : Except PyErr Nat :=
  match scan_index (used_indexes root plugin) 1048576 0 with
  | some i => Except.ok i
  | none => Except.error PyErr.unboundLocal

/-- Outcome of `ui_command_delete`: either `shell.log.error` was called and
the command returned without deleting anything, or the deletion ran and
`shell.log.info` reported the deleted name. -/
inductive DeleteOutcome where
  | errorLogged (msg : String)
  | deleted (msg : String)
deriving DecidableEq

/-- `self.get_child(name)`: the child whose display name is `name`
(raises `ValueError`, i.e. returns `none`, when there is none). -/
def get_child (children : List UIStorageObject) (name : String) :
    Option UIStorageObject :=
  children.find? (fun c => c.name == name)

/-- `UIBackstore.ui_command_delete`: look up the child by display name; on
`ValueError` log an error and return with the state untouched; otherwise
delete the storage object, delete its backstore too when no storage object
remains on that backstore, and log success naming the deleted child. -/
def ui_command_delete (root : RTSRoot) (children : List UIStorageObject)
    (name : String) : RTSRoot × DeleteOutcome :=
  match get_child children name with
  | none =>
      (root, DeleteOutcome.errorLogged ("No storage object named " ++ name ++ "."))
  | some child =>
      let so := child.rtsnode
      let root1 : RTSRoot := ⟨root.backstores, root.storage_objects.erase so⟩
      let root2 : RTSRoot :=
        if root1.storage_objects.filter
            (fun s => s.plugin == so.plugin && s.hbaIndex == so.hbaIndex) = [] then
          ⟨root1.backstores.filter
              (fun b => !(b.plugin == so.plugin && b.index == so.hbaIndex)),
           root1.storage_objects⟩
        else root1
      (root2, DeleteOutcome.deleted ("Deleted storage object " ++ name ++ "."))

/-- Result of a creation entry point: `return self.new_node(ui_so)`, falling
off the end of the function (Python returns `None`), or an exception
propagating out of the call. -/
inductive CreateResult where
  | node (ui_so : UIStorageObject)
  | retNone
  | raised (e : PyErr)
deriving DecidableEq

/-- Common body of `ui_command_create` for the pscsi, rd_dr, rd_mcp and
iblock backstores: check the proposed name against the children, allocate an
index, create the backstore, then try to create the storage object; when the
driver raises (`so_raises`), delete the just-created backstore and re-raise.
Driver-side parameters (`dev`, `size`, `generate_wwn`) do not influence this
state evolution and are absorbed into the `so_raises` oracle. -/
def simple_create (plugin : String) (root : RTSRoot) (name : String)
    (so_raises : Bool) : RTSRoot × CreateResult :=
  match assert_available_so_name plugin (refresh root plugin) name with
  | Except.error e => (root, CreateResult.raised e)
  | Except.ok () =>
    match next_hba_index root plugin with
    | Except.error e => (root, CreateResult.raised e)
    | Except.ok idx =>
      let backstore : Backstore := ⟨plugin, idx⟩
      let root1 : RTSRoot := ⟨root.backstores ++ [backstore], root.storage_objects⟩
      if so_raises then
        (⟨root1.backstores.erase backstore, root1.storage_objects⟩,
         CreateResult.raised PyErr.driverError)
      else
        let so : StorageObject := ⟨name, plugin, idx⟩
        (⟨root1.backstores, root1.storage_objects ++ [so]⟩,
         CreateResult.node ⟨name, so⟩)

/-- `UIPSCSIBackstore.ui_command_create`. -/
def pscsi_create (root : RTSRoot) (name : String) (so_raises : Bool) :
    RTSRoot × CreateResult :=
  simple_create "pscsi" root name so_raises

/-- `UIRDDRBackstore.ui_command_create`. -/
def rd_dr_create (root : RTSRoot) (name : String) (so_raises : Bool) :
    RTSRoot × CreateResult :=
  simple_create "rd_dr" root name so_raises

/-- `UIRDMCPBackstore.ui_command_create`. -/
def rd_mcp_create (root : RTSRoot) (name : String) (so_raises : Bool) :
    RTSRoot × CreateResult :=
  simple_create "rd_mcp" root name so_raises

/-- `UIIBlockBackstore.ui_command_create`. -/
def iblock_create (root : RTSRoot) (name : String) (so_raises : Bool) :
    RTSRoot × CreateResult :=
  simple_create "iblock" root name so_raises

/-- The filesystem state consulted by the fileio entry point: regular files
with their byte length, block devices / disk partitions, and other existing
paths (which are neither regular files nor block devices). -/
structure FileSystem where
  files : List (String × Nat)
  devs : List String
  others : List String
deriving DecidableEq

/-- `os.path.isfile`. -/
def isfile (fs : FileSystem) (p : String) : Bool :=
  (fs.files.map (fun f => f.1)).contains p

/-- `get_block_type(p) is not None or is_disk_partition(p)`. -/
def is_dev (fs : FileSystem) (p : String) : Bool :=
  fs.devs.contains p

/-- `os.path.exists`. -/
def path_exists (fs : FileSystem) (p : String) : Bool :=
  isfile fs p || is_dev fs p || fs.others.contains p

/-- `os.path.getsize` (0 when the path is not a regular file). -/
def getsize (fs : FileSystem) (p : String) : Nat :=
  ((fs.files.find? (fun f => f.1 == p)).map (fun f => f.2)).getD 0

/-- Python truthiness of the optional `size` string (`if size:` /
`if not size:`): falsy when absent or the empty string. -/
def pyTruthy (size : Option String) : Bool :=
  match size with
  | none => false
  | some s => !(s == "")

/-- `os.remove`: drop a regular file entry. -/
def fs_remove (fs : FileSystem) (p : String) : FileSystem :=
  ⟨fs.files.filter (fun f => !(f.1 == p)), fs.devs, fs.others⟩

/-- Create or overwrite a regular file entry with the given byte length. -/
def fs_set (fs : FileSystem) (p : String) (len : Nat) : FileSystem :=
  ⟨(fs.files.filter (fun f => !(f.1 == p))) ++ [(p, len)], fs.devs, fs.others⟩

/-- `UIFileIOBackstore._create_file`: `open(filename, "w+")` creates the file
or truncates it to 0 bytes; sparse mode then `ftruncate`s it to `size`,
non-sparse mode writes `size` zero bytes in chunks of at most 1024 — either
way the file ends up exactly `size` bytes long. An `IOError` while expanding
(the `io_fails` oracle) closes and removes the file and raises
`ExecutionError("Could not expand file to size")`. -/
def create_file (fs : FileSystem) (filename : String) (size : Nat)
    (sparse : Bool) (io_fails : Bool) : FileSystem × Except PyErr Unit :=
  let fs1 := fs_set fs filename 0
  if io_fails then
    (fs_remove fs1 filename,
     Except.error (PyErr.executionError "Could not expand file to size"))
  else
    (fs_set fs1 filename size, Except.ok ())

/-- `UIFileIOBackstore.ui_command_create`, mirroring the source control flow:
after the name check and the `sparse` parameter evaluation, a first
`FileIOBackstore(self.next_hba_index(), mode='create')` is created
unconditionally; then the device branch (`size is None and is_dev`) and the
size branch (`size is not None and not is_dev`) each create a second
backstore and try the storage object on it, deleting only that second
backstore when the driver raises; the remaining branch reads an existing
regular file's size into a local (discarded, since the function then ends),
rejects an existing non-file path, or demands a size for a path that does
not exist — the `self._create_file` call behind that size check is modelled
faithfully but requires a truthy `size`, which the guard in front of it has
already excluded. No storage object is created on this remaining branch and
the function returns `None`. -/
def fileio_create (root : RTSRoot) (fs : FileSystem) (name : String)
    (file_or_dev : String) (size : Option String) (sparse : Option Bool)
    (so_raises : Bool) (convert_human_to_bytes : String → Nat)
    (io_fails : Bool) : RTSRoot × FileSystem × CreateResult :=
  match assert_available_so_name "fileio" (refresh root "fileio") name with
  | Except.error e => (root, fs, CreateResult.raised e)
  | Except.ok () =>
    let sparse_val := sparse.getD true
    match next_hba_index root "fileio" with
    | Except.error e => (root, fs, CreateResult.raised e)
    | Except.ok idx0 =>
      let root0 : RTSRoot :=
        ⟨root.backstores ++ [⟨"fileio", idx0⟩], root.storage_objects⟩
      let isdev := is_dev fs file_or_dev
      if size.isNone && isdev then
        match next_hba_index root0 "fileio" with
        | Except.error e => (root0, fs, CreateResult.raised e)
        | Except.ok idx1 =>
          let b1 : Backstore := ⟨"fileio", idx1⟩
          let root1 : RTSRoot := ⟨root0.backstores ++ [b1], root0.storage_objects⟩
          if so_raises then
            (⟨root1.backstores.erase b1, root1.storage_objects⟩, fs,
             CreateResult.raised PyErr.driverError)
          else
            let so : StorageObject := ⟨name, "fileio", idx1⟩
            (⟨root1.backstores, root1.storage_objects ++ [so]⟩, fs,
             CreateResult.node ⟨name, so⟩)
      else if size.isSome && !isdev then
        match next_hba_index root0 "fileio" with
        | Except.error e => (root0, fs, CreateResult.raised e)
        | Except.ok idx1 =>
          let b1 : Backstore := ⟨"fileio", idx1⟩
          let root1 : RTSRoot := ⟨root0.backstores ++ [b1], root0.storage_objects⟩
          if so_raises then
            (⟨root1.backstores.erase b1, root1.storage_objects⟩, fs,
             CreateResult.raised PyErr.driverError)
          else
            let so : StorageObject := ⟨name, "fileio", idx1⟩
            (⟨root1.backstores, root1.storage_objects ++ [so]⟩, fs,
             CreateResult.node ⟨name, so⟩)
      else
        if isfile fs file_or_dev then
          (root0, fs, CreateResult.retNone)
        else if path_exists fs file_or_dev then
          (root0, fs, CreateResult.raised (PyErr.executionError
            ("Path " ++ file_or_dev ++ " exists but is not a file")))
        else if !(pyTruthy size) then
          (root0, fs, CreateResult.raised (PyErr.executionError
            "Attempting to create file for new fileio backstore, need a size"))
        else
          let res := create_file fs file_or_dev
            (convert_human_to_bytes (size.getD "")) sparse_val io_fails
          match res.2 with
          | Except.error e => (root0, res.1, CreateResult.raised e)
          | Except.ok () => (root0, res.1, CreateResult.retNone)

/-- The scan returns `some j` when `j` is the first index at or after `start`
that is free, provided `j` lies within the remaining fuel. -/
theorem scan_index_eq_some (indexes : List Nat) :
    ∀ (fuel start j : Nat), j ∉ indexes →
      (∀ i, start ≤ i → i < j → i ∈ indexes) →
      start ≤ j → j < start + fuel →
      scan_index indexes fuel start = some j := by
  intro fuel
  induction fuel with
  | zero =>
      intro start j _ _ h3 h4
      omega
  | succ n ih =>
      intro start j h1 h2 h3 h4
      by_cases hs : start ∈ indexes
      · have hrec : scan_index indexes n (start + 1) = some j :=
          ih (start + 1) j h1 (fun i hi hij => h2 i (by omega) hij) (by
            rcases Nat.lt_or_ge start j with h | h
            · omega
            · exfalso
              have : start = j := by omega
              exact h1 (this ▸ hs)) (by omega)
        simp [scan_index, hs, hrec]
      · have hsj : start = j := by
          by_contra hne
          exact hs (h2 start le_rfl (by omega))
        subst hsj
        simp [scan_index, hs]

/-- The scan returns `none` when every index in the scanned range is used. -/
theorem scan_index_eq_none (indexes : List Nat) :
    ∀ (fuel start : Nat),
      (∀ i, start ≤ i → i < start + fuel → i ∈ indexes) →
      scan_index indexes fuel start = none := by
  intro fuel
  induction fuel with
  | zero => intro start _; rfl
  | succ n ih =>
      intro start h
      have hs : start ∈ indexes := h start le_rfl (by omega)
      have hrec : scan_index indexes n (start + 1) = none :=
        ih (start + 1) (fun i hi1 hi2 => h i (by omega) (by omega))
      simp [scan_index, hs, hrec]

/-- An index returned by the scan is not among the used indexes. -/
theorem scan_index_some_not_mem (indexes : List Nat) :
    ∀ (fuel start j : Nat), scan_index indexes fuel start = some j →
      j ∉ indexes := by
  intro fuel
  induction fuel with
  | zero => intro start j h; exact absurd h (by simp [scan_index])
  | succ n ih =>
      intro start j h
      by_cases hs : start ∈ indexes
      · exact ih (start + 1) j (by simpa [scan_index, hs] using h)
      · have hj : start = j := by simpa [scan_index, hs] using h
        exact hj ▸ hs

/-- C4: for every backend kind, `next_hba_index` returns the smallest
non-negative integer not currently used as an index by a live backstore of
that kind (provided such an index exists below the scan bound); the
`{0,1,2}` minus `{1}` scenario of the claim is the witness below. -/
theorem C4_next_hba_index_least (root : RTSRoot) (plugin : String) (j : Nat)
    (h1 : j ∉ used_indexes root plugin)
    (h2 : ∀ i, i < j → i ∈ used_indexes root plugin)
    (h3 : j < 1048576) :
    next_hba_index root plugin = Except.ok j := by
  unfold next_hba_index
  rw [scan_index_eq_some (used_indexes root plugin) 1048576 0 j h1
      (fun i _ hij => h2 i hij) (Nat.zero_le j) (by omega)]

/-- C4 witness: backstores of kind rd_mcp exist at indices 0, 1 and 2 (plus
an unrelated pscsi backstore at index 1); deleting the rd_mcp storage object
at index 1 through `ui_command_delete` also deletes its backstore, and the
next allocated rd_mcp index is 1. -/
theorem C4_witness :
    next_hba_index
      (ui_command_delete
        (RTSRoot.mk
          [⟨"rd_mcp", 0⟩, ⟨"rd_mcp", 1⟩, ⟨"rd_mcp", 2⟩, ⟨"pscsi", 1⟩]
          [⟨"x0", "rd_mcp", 0⟩, ⟨"x1", "rd_mcp", 1⟩, ⟨"x2", "rd_mcp", 2⟩])
        (refresh
          (RTSRoot.mk
            [⟨"rd_mcp", 0⟩, ⟨"rd_mcp", 1⟩, ⟨"rd_mcp", 2⟩, ⟨"pscsi", 1⟩]
            [⟨"x0", "rd_mcp", 0⟩, ⟨"x1", "rd_mcp", 1⟩, ⟨"x2", "rd_mcp", 2⟩])
          "rd_mcp")
        "x1").1
      "rd_mcp" = Except.ok 1 :=
  C4_next_hba_index_least _ _ 1 (by decide) (by decide) (by decide)

/-- C5: when every index in the scanned range `0 ≤ i < 1048576` is already
used by a live backstore of the requested kind, `next_hba_index` raises
Python's `UnboundLocalError` (the loop never assigns `backstore_index`, and
the guard `if backstore_index is None` reads the unassigned local), not the
`ExecutionError("Cannot find an available backstore index.")` the code
intends to raise. -/
theorem C5_exhausted_raises_unbound_local (root : RTSRoot) (plugin : String)
    (h : ∀ i, i < 1048576 → i ∈ used_indexes root plugin) :
    next_hba_index root plugin = Except.error PyErr.unboundLocal := by
  unfold next_hba_index
  rw [scan_index_eq_none _ 1048576 0 (fun i _ hi => h i (by omega))]

/-- In a state whose backstores of kind `plugin` occupy exactly the indices
`0 ≤ i < n`, every such index is used. -/
theorem mem_used_indexes_range (plugin : String) (n i : Nat) (hi : i < n) :
    i ∈ used_indexes
      (RTSRoot.mk ((List.range n).map (fun j => ⟨plugin, j⟩)) []) plugin := by
  refine List.mem_map.mpr ⟨⟨plugin, i⟩, List.mem_filter.mpr ⟨?_, ?_⟩, rfl⟩
  · exact List.mem_map.mpr ⟨i, List.mem_range.mpr hi, rfl⟩
  · simp

/-- C5 witness: the concrete exhausted state in which an iblock backstore
occupies every index `0 ≤ i < 1048576`. -/
theorem C5_witness :
    next_hba_index
      (RTSRoot.mk ((List.range 1048576).map (fun i => ⟨"iblock", i⟩)) [])
      "iblock" = Except.error PyErr.unboundLocal :=
  C5_exhausted_raises_unbound_local _ _ (fun i hi =>
    mem_used_indexes_range "iblock" 1048576 i hi)

/-- C1: evaluation of the fileio creation entry point at a failing input
(empty initial state, non-existent backing path, size supplied, driver
storage-object creation raises). The exception is propagated and the
backstore bound at the try site is deleted, but the backstore created
unconditionally at the top of the entry point survives: an orphaned fileio
backend at index 0 with no storage object remains, contradicting the
claim's "no orphaned backend is left behind". -/
theorem C1_fileio_rollback_leaves_orphan :
    fileio_create (RTSRoot.mk [] []) (FileSystem.mk [] [] []) "f1" "/store/f1"
        (some "1M") none true (fun _ => 1000000) false =
      (RTSRoot.mk [⟨"fileio", 0⟩] [], FileSystem.mk [] [] [],
       CreateResult.raised PyErr.driverError) := by
  decide

/-- C2: evaluation of the fileio creation entry point at a successful input
(empty initial state, non-existent backing path, size supplied, driver
succeeds). Two fileio backends are created (indices 0 and 1), the storage
object lands on index 1 only, and the backend at index 0 remains live with
zero storage objects after the entry point returns, contradicting the
claimed invariant. -/
theorem C2_fileio_success_leaves_empty_backend :
    fileio_create (RTSRoot.mk [] []) (FileSystem.mk [] [] []) "f1" "/store/f1"
        (some "1M") none false (fun _ => 1000000) false =
      (RTSRoot.mk [⟨"fileio", 0⟩, ⟨"fileio", 1⟩] [⟨"f1", "fileio", 1⟩],
       FileSystem.mk [] [] [],
       CreateResult.node ⟨"f1", ⟨"f1", "fileio", 1⟩⟩) ∧
    (⟨"fileio", 0⟩ : Backstore) ∈
      (fileio_create (RTSRoot.mk [] []) (FileSystem.mk [] [] []) "f1" "/store/f1"
        (some "1M") none false (fun _ => 1000000) false).1.backstores ∧
    ((fileio_create (RTSRoot.mk [] []) (FileSystem.mk [] [] []) "f1" "/store/f1"
        (some "1M") none false (fun _ => 1000000) false).1.storage_objects.filter
      (fun s => s.plugin == "fileio" && s.hbaIndex == 0)) = [] := by
  refine ⟨by decide, by decide, by decide⟩

/-- C3: on a non-existent regular-file path, the fileio entry point without
a size does raise the size-required `ExecutionError` (the claim's first
half holds), but with a size supplied it takes the generic size branch and
hands path and size to the driver without touching the filesystem: no
backing file is created, truncated or zero-filled by this code (the
`_create_file` sub-protocol is unreachable on this path). -/
theorem C3_fileio_new_file_size_handling :
    (fileio_create (RTSRoot.mk [] []) (FileSystem.mk [] [] []) "f1" "/store/f1"
        none none false (fun _ => 1000000) false).2.2 =
      CreateResult.raised (PyErr.executionError
        "Attempting to create file for new fileio backstore, need a size") ∧
    (fileio_create (RTSRoot.mk [] []) (FileSystem.mk [] [] []) "f1" "/store/f1"
        (some "1M") none false (fun _ => 1000000) false).2.1 =
      FileSystem.mk [] [] [] := by
  refine ⟨by decide, by decide⟩

/-- C9: evaluation of the fileio creation entry point on an existing
512-byte regular file with no size supplied. The entry point returns `None`
instead of a view node: no storage object is created at all (and the
backstore created at the top of the entry point is left behind with zero
storage objects), contradicting the claim that this case succeeds with a
view wrapping a new StorageObject of the file's on-disk size. -/
theorem C9_fileio_existing_file_creates_nothing :
    fileio_create (RTSRoot.mk [] [])
        (FileSystem.mk [("/store/f1", 512)] [] []) "f1" "/store/f1"
        none none false (fun _ => 1000000) false =
      (RTSRoot.mk [⟨"fileio", 0⟩] [],
       FileSystem.mk [("/store/f1", 512)] [] [],
       CreateResult.retNone) := by
  decide

/-- Unfolding equation of `ui_command_delete` when a child with the given
display name exists. -/
theorem ui_command_delete_some (root : RTSRoot) (children : List UIStorageObject)
    (name : String) (child : UIStorageObject)
    (h : get_child children name = some child) :
    ui_command_delete root children name =
      ((if (root.storage_objects.erase child.rtsnode).filter
            (fun s => s.plugin == child.rtsnode.plugin &&
                      s.hbaIndex == child.rtsnode.hbaIndex) = [] then
          (⟨root.backstores.filter
              (fun b => !(b.plugin == child.rtsnode.plugin &&
                          b.index == child.rtsnode.hbaIndex)),
            root.storage_objects.erase child.rtsnode⟩ : RTSRoot)
        else ⟨root.backstores, root.storage_objects.erase child.rtsnode⟩),
       DeleteOutcome.deleted ("Deleted storage object " ++ name ++ ".")) := by
  unfold ui_command_delete
  rw [h]

/-- C6: the deletion entry point. When no child carries the given display
name, the error is reported (logged) and nothing is deleted. When a child
is found, the command reports success naming the deleted child, removes
exactly that child's storage object, deletes the owning backend if and only
if no storage object remains on it afterwards, and leaves every other
backend's membership unchanged. -/
theorem C6_delete_protocol (root : RTSRoot) (children : List UIStorageObject)
    (name : String) :
    (get_child children name = none →
      ui_command_delete root children name =
        (root, DeleteOutcome.errorLogged
          ("No storage object named " ++ name ++ "."))) ∧
    (∀ child : UIStorageObject, get_child children name = some child →
      (ui_command_delete root children name).2 =
        DeleteOutcome.deleted ("Deleted storage object " ++ name ++ ".") ∧
      (ui_command_delete root children name).1.storage_objects =
        root.storage_objects.erase child.rtsnode ∧
      (∀ b : Backstore, b.plugin = child.rtsnode.plugin →
          b.index = child.rtsnode.hbaIndex →
          (b ∈ (ui_command_delete root children name).1.backstores ↔
            b ∈ root.backstores ∧
              (root.storage_objects.erase child.rtsnode).filter
                (fun s => s.plugin == child.rtsnode.plugin &&
                          s.hbaIndex == child.rtsnode.hbaIndex) ≠ [])) ∧
      (∀ b : Backstore,
          ¬(b.plugin = child.rtsnode.plugin ∧ b.index = child.rtsnode.hbaIndex) →
          (b ∈ (ui_command_delete root children name).1.backstores ↔
            b ∈ root.backstores))) := by
  constructor
  · intro h
    unfold ui_command_delete
    rw [h]
  · intro child h
    rw [ui_command_delete_some root children name child h]
    refine ⟨rfl, ?_, ?_, ?_⟩
    · split <;> rfl
    · intro b hbp hbi
      split
      next hc => simp [List.mem_filter, hbp, hbi, hc]
      next hc => simp [hc]
    · intro b hb
      have hpred : (b.plugin == child.rtsnode.plugin &&
          b.index == child.rtsnode.hbaIndex) = false := by
        by_cases h1 : b.plugin = child.rtsnode.plugin
        · have h2 : b.index ≠ child.rtsnode.hbaIndex := fun h2 => hb ⟨h1, h2⟩
          simp [h1, h2]
        · simp [h1]
      split
      next hc =>
        simp [List.mem_filter, hpred]
        exact fun _ => not_and_or.mp hb
      next hc => exact Iff.rfl

/-- C6 witness: deleting the only storage object on a backend removes both
the storage object and the backend; deleting one of two storage objects
sharing a backend removes only the storage object and leaves the backend;
the command reports the deleted name. -/
theorem C6_witness :
    (⟨"fileio", 0⟩ : Backstore) ∉
      (ui_command_delete (RTSRoot.mk [⟨"fileio", 0⟩] [⟨"x", "fileio", 0⟩])
        (refresh (RTSRoot.mk [⟨"fileio", 0⟩] [⟨"x", "fileio", 0⟩]) "fileio")
        "x").1.backstores ∧
    (⟨"fileio", 0⟩ : Backstore) ∈
      (ui_command_delete
        (RTSRoot.mk [⟨"fileio", 0⟩] [⟨"x", "fileio", 0⟩, ⟨"y", "fileio", 0⟩])
        (refresh
          (RTSRoot.mk [⟨"fileio", 0⟩] [⟨"x", "fileio", 0⟩, ⟨"y", "fileio", 0⟩])
          "fileio")
        "x").1.backstores ∧
    (ui_command_delete
        (RTSRoot.mk [⟨"fileio", 0⟩] [⟨"x", "fileio", 0⟩, ⟨"y", "fileio", 0⟩])
        (refresh
          (RTSRoot.mk [⟨"fileio", 0⟩] [⟨"x", "fileio", 0⟩, ⟨"y", "fileio", 0⟩])
          "fileio")
        "x").2 =
      DeleteOutcome.deleted ("Deleted storage object " ++ "x" ++ ".") := by
  have h1 := ((C6_delete_protocol
      (RTSRoot.mk [⟨"fileio", 0⟩] [⟨"x", "fileio", 0⟩])
      (refresh (RTSRoot.mk [⟨"fileio", 0⟩] [⟨"x", "fileio", 0⟩]) "fileio")
      "x").2 ⟨"x", ⟨"x", "fileio", 0⟩⟩ (by decide)).2.2.1 ⟨"fileio", 0⟩ rfl rfl
  have h2 := ((C6_delete_protocol
      (RTSRoot.mk [⟨"fileio", 0⟩] [⟨"x", "fileio", 0⟩, ⟨"y", "fileio", 0⟩])
      (refresh
        (RTSRoot.mk [⟨"fileio", 0⟩] [⟨"x", "fileio", 0⟩, ⟨"y", "fileio", 0⟩])
        "fileio")
      "x").2 ⟨"x", ⟨"x", "fileio", 0⟩⟩ (by decide)).2.2.1 ⟨"fileio", 0⟩ rfl rfl
  have h3 := ((C6_delete_protocol
      (RTSRoot.mk [⟨"fileio", 0⟩] [⟨"x", "fileio", 0⟩, ⟨"y", "fileio", 0⟩])
      (refresh
        (RTSRoot.mk [⟨"fileio", 0⟩] [⟨"x", "fileio", 0⟩, ⟨"y", "fileio", 0⟩])
        "fileio")
      "x").2 ⟨"x", ⟨"x", "fileio", 0⟩⟩ (by decide)).1
  refine ⟨?_, ?_, h3⟩
  · rw [h1]; decide
  · rw [h2]; decide

/-- C10: calling the deletion entry point with a name matching no child is
a no-op: the returned state is the initial state unchanged (only the error
is logged). -/
theorem C10_failed_delete_is_noop (root : RTSRoot)
    (children : List UIStorageObject) (name : String)
    (h : get_child children name = none) :
    ui_command_delete root children name =
      (root, DeleteOutcome.errorLogged
        ("No storage object named " ++ name ++ ".")) := by
  unfold ui_command_delete
  rw [h]

/-- C10 witness: deleting a name absent from the children of a populated
backstore returns the state untouched. -/
theorem C10_witness :
    ui_command_delete (RTSRoot.mk [⟨"fileio", 0⟩] [⟨"x", "fileio", 0⟩])
        (refresh (RTSRoot.mk [⟨"fileio", 0⟩] [⟨"x", "fileio", 0⟩]) "fileio")
        "y" =
      (RTSRoot.mk [⟨"fileio", 0⟩] [⟨"x", "fileio", 0⟩],
       DeleteOutcome.errorLogged ("No storage object named " ++ "y" ++ ".")) :=
  C10_failed_delete_is_noop _ _ _ (by decide)

/-- C7: the display name equals the stored name when at most one storage
object of the same kind carries that literal name, and equals the stored
name suffixed with an underscore and the owning backstore's index when more
than one does; deduplication is display-only — every UI child produced by
`refresh` wraps the original storage object with its stored name unchanged. -/
theorem C7_dedup_display_name (root : RTSRoot) (so : StorageObject) :
    ((so_names root so.plugin).count so.name ≤ 1 →
      dedup_so_name root so = so.name) ∧
    (1 < (so_names root so.plugin).count so.name →
      dedup_so_name root so = so.name ++ "_" ++ toString so.hbaIndex) ∧
    (∀ plugin : String,
      (refresh root plugin).map (fun c => c.rtsnode) =
        root.storage_objects.filter (fun s => s.plugin == plugin)) := by
  refine ⟨?_, ?_, ?_⟩
  · intro h
    unfold dedup_so_name
    rw [if_neg (by omega)]
  · intro h
    unfold dedup_so_name
    rw [if_pos (by omega)]
  · intro plugin
    unfold refresh
    rw [List.map_map]
    exact List.map_id' _

/-- C7 witness: with two fileio storage objects both stored as `x` (on
backstores 0 and 1) and a lone iblock storage object `y`, the fileio pair
displays with index suffixes while `y` displays unchanged. -/
theorem C7_witness :
    dedup_so_name
      (RTSRoot.mk []
        [⟨"x", "fileio", 0⟩, ⟨"x", "fileio", 1⟩, ⟨"y", "iblock", 3⟩])
      ⟨"x", "fileio", 0⟩ = "x" ++ "_" ++ toString (0 : Nat) ∧
    dedup_so_name
      (RTSRoot.mk []
        [⟨"x", "fileio", 0⟩, ⟨"x", "fileio", 1⟩, ⟨"y", "iblock", 3⟩])
      ⟨"y", "iblock", 3⟩ = "y" :=
  ⟨(C7_dedup_display_name
      (RTSRoot.mk []
        [⟨"x", "fileio", 0⟩, ⟨"x", "fileio", 1⟩, ⟨"y", "iblock", 3⟩])
      ⟨"x", "fileio", 0⟩).2.1 (by decide),
   (C7_dedup_display_name
      (RTSRoot.mk []
        [⟨"x", "fileio", 0⟩, ⟨"x", "fileio", 1⟩, ⟨"y", "iblock", 3⟩])
      ⟨"y", "iblock", 3⟩).1 (by decide)⟩

/-- C8 counterexample: in a pre-migration state with two fileio storage
objects both stored as `x`, the children display as `x_0` and `x_1`, so
proposing the name `x` passes the availability check even though `x` is the
stored name of a sibling storage object of the same kind — the claim, read
on stored names, is false here. -/
theorem C8_counterexample :
    assert_available_so_name "fileio"
      (refresh
        (RTSRoot.mk [⟨"fileio", 0⟩, ⟨"fileio", 1⟩]
          [⟨"x", "fileio", 0⟩, ⟨"x", "fileio", 1⟩])
        "fileio")
      "x" = Except.ok () ∧
    "x" ∈ so_names
      (RTSRoot.mk [⟨"fileio", 0⟩, ⟨"fileio", 1⟩]
        [⟨"x", "fileio", 0⟩, ⟨"x", "fileio", 1⟩])
      "fileio" := by
  decide

/-- C8 (amended): the availability check fails with the name-conflict
`ExecutionError` exactly when the proposed name is already the displayed
(deduplicated) name of a sibling storage object of the same backend kind;
it succeeds otherwise — in particular when the same name exists only among
storage objects of a different kind, since `refresh` restricts the children
to this backstore's plugin. -/
theorem C8_available_iff_display_name_free (root : RTSRoot)
    (plugin name : String) :
    (assert_available_so_name plugin (refresh root plugin) name =
        Except.ok () ↔
      name ∉ (refresh root plugin).map (fun c => c.name)) ∧
    (name ∈ (refresh root plugin).map (fun c => c.name) →
      assert_available_so_name plugin (refresh root plugin) name =
        Except.error (PyErr.executionError
          ("Storage object " ++ plugin ++ "/" ++ name ++ " already exist."))) := by
  constructor
  · unfold assert_available_so_name
    split
    next h => simp [h]
    next h => simp [h]
  · intro h
    unfold assert_available_so_name
    rw [if_pos h]

/-- C8 witness: the name `x` of an iblock storage object does not block
creating a fileio object named `x`, while a fileio sibling displayed as `x`
does. -/
theorem C8_witness :
    assert_available_so_name "fileio"
      (refresh (RTSRoot.mk [⟨"iblock", 0⟩] [⟨"x", "iblock", 0⟩]) "fileio")
      "x" = Except.ok () ∧
    assert_available_so_name "fileio"
      (refresh (RTSRoot.mk [⟨"fileio", 0⟩] [⟨"x", "fileio", 0⟩]) "fileio")
      "x" = Except.error (PyErr.executionError
        ("Storage object " ++ "fileio" ++ "/" ++ "x" ++ " already exist.")) :=
  ⟨(C8_available_iff_display_name_free
      (RTSRoot.mk [⟨"iblock", 0⟩] [⟨"x", "iblock", 0⟩]) "fileio" "x").1.mpr
      (by decide),
   (C8_available_iff_display_name_free
      (RTSRoot.mk [⟨"fileio", 0⟩] [⟨"x", "fileio", 0⟩]) "fileio" "x").2
      (by decide)⟩

/-- Erasing an element appended to a list it does not occur in restores the
list. -/
theorem erase_append_singleton {α : Type} [DecidableEq α] (a : α) :
    ∀ l : List α, a ∉ l → (l ++ [a]).erase a = l := by
  intro l
  induction l with
  | nil =>
      intro _
      simp [List.erase_cons]
  | cons x xs ih =>
      intro h
      have hx : (x == a) = false := by
        have hxne : x ≠ a := fun e => h (by rw [e]; exact List.mem_cons_self a xs)
        simp [hxne]
      simp [List.erase_cons, hx]
      exact ih (fun hm => h (List.mem_cons_of_mem x hm))

/-- Supporting fact for the four single-backstore kinds (pscsi, rd_dr,
rd_mcp, iblock): when the driver's storage-object creation raises, the
just-created backstore is deleted before the exception propagates, and the
entry point returns the initial state unchanged — rollback is complete for
these kinds, in contrast with the fileio entry point. -/
theorem simple_create_rollback (plugin : String) (root : RTSRoot)
    (name : String) (idx : Nat)
    (hname : assert_available_so_name plugin (refresh root plugin) name =
      Except.ok ())
    (hidx : next_hba_index root plugin = Except.ok idx) :
    simple_create plugin root name true =
      (root, CreateResult.raised PyErr.driverError) := by
  have hfree : idx ∉ used_indexes root plugin := by
    have hscan : scan_index (used_indexes root plugin) 1048576 0 = some idx := by
      unfold next_hba_index at hidx
      cases hsc : scan_index (used_indexes root plugin) 1048576 0 with
      | none => rw [hsc] at hidx; cases hidx
      | some i =>
          rw [hsc] at hidx
          cases hidx
          rfl
    exact scan_index_some_not_mem _ 1048576 0 idx hscan
  have hnotmem : (⟨plugin, idx⟩ : Backstore) ∉ root.backstores := by
    intro hmem
    exact hfree (List.mem_map.mpr
      ⟨⟨plugin, idx⟩, List.mem_filter.mpr ⟨hmem, by simp⟩, rfl⟩)
  have herase : (root.backstores ++ [(⟨plugin, idx⟩ : Backstore)]).erase
      ⟨plugin, idx⟩ = root.backstores :=
    erase_append_singleton _ _ hnotmem
  unfold simple_create
  rw [hname, hidx]
  simp [herase]

end Targetcli
